import Mathlib

/-!
Shallow embedding of the TTS engine core of this repository
(src/backend/src/tts/coqui.py, src/backend/src/tts/engine_base.py,
src/backend/src/tts/audio.py) together with proofs about the embedded
operations.

Conventions of the embedding:
* Python floating point samples are modelled as exact rationals (ℚ).
* The effectful parts of the engine (model construction in the executor,
  `model.tts`, temp-file creation and deletion) are modelled by explicit
  state passing: `Sys` carries the engine fields `is_loaded` / `model`
  together with observable effect counters (number of model constructions,
  number of `model.tts` invocations) and the set of files on disk.
* Nondeterminism of the outside world (does `TTS(...)` construction
  succeed, does `model.tts` succeed, which name the OS picks for the
  `NamedTemporaryFile`) is supplied through an `Env` record.
* A Python exception propagating out of a function is an `Except.error`.
-/

set_option maxRecDepth 100000

namespace TTSVerify

/-- A single-quote character, used to build the exact Python f-string
messages raised by `synthesize`. -/
def sq : String := String.singleton (Char.ofNat 39)

/-- Python `str` of a list of strings, e.g. `"['en', 'es']"` as produced by
the f-string `f"... {self.SUPPORTED_LANGUAGES}"` in coqui.py line 66. -/
def pyStrListRepr (l : List String) : String :=
  "[" ++ String.intercalate ", " (l.map (fun s => sq ++ s ++ sq)) ++ "]"

/-- `CoquiXTTSEngine.SUPPORTED_LANGUAGES` (coqui.py lines 14-17). -/
def SUPPORTED_LANGUAGES : List String :=
  ["en", "es", "fr", "de", "it", "pt", "pl", "tr",
   "ru", "nl", "cs", "ar", "zh-cn", "ja", "hu", "ko"]

/-- A Python exception escaping the embedded code. `loadException` is the
exception re-raised by `load_model` when `TTS(self.model_name)` fails;
`ttsException` is the exception re-raised by `synthesize` when
`self.model.tts` fails; `valueError` carries the message of a `ValueError`
raised by the validation steps. -/
inductive PyErr where
  | valueError (msg : String)
  | loadException
  | ttsException
  deriving DecidableEq, Repr

/-- The `speaker_wav` argument of `synthesize`: a `str`/`Path` (merged, the
code treats them identically via `isinstance(speaker_wav, (str, Path))`)
or an in-memory numpy array of samples. -/
inductive SpeakerWav where
  | path (p : String)
  | buffer (data : List ℚ)
  deriving DecidableEq, Repr

/-- The engine fields set by `TTSEngineBase.__init__` and mutated by
`load_model` (engine_base.py lines 10-13, coqui.py lines 36-50).  A model
handle is identified by the `Nat` sequence number of its construction. -/
structure EngineState where
  is_loaded : Bool
  model : Option Nat
  deriving DecidableEq, Repr

/-- The full observable state: engine fields plus effect bookkeeping.
`nextHandle` numbers successive `TTS(...)` constructions,
`constructions` counts completed `TTS(...)` constructions,
`ttsCalls` counts invocations of `self.model.tts`, and
`files` is the set (as a list) of files currently on disk. -/
structure Sys where
  engine : EngineState
  nextHandle : Nat
  constructions : Nat
  ttsCalls : Nat
  files : List String
  deriving DecidableEq, Repr

/-- The outside world for one call: whether `TTS(self.model_name)`
construction succeeds, whether `self.model.tts` succeeds, the samples the
model returns on success, and the unique name the OS gives the
`NamedTemporaryFile` of coqui.py line 84. -/
structure Env where
  loadOk : Bool
  ttsOk : Bool
  ttsAudio : List ℚ
  tmpName : String
  deriving DecidableEq, Repr

/-- `CoquiXTTSEngine.load_model` (coqui.py lines 36-50):
`self.model = await loop.run_in_executor(None, lambda: TTS(self.model_name).to(self.device))`
followed by `self.is_loaded = True`; on an exception from the executor the
`except` block prints and re-raises, leaving every field untouched. -/
def load_model (env : Env) (s : Sys) : Sys × Except PyErr Unit :=
  if env.loadOk then
    ({ s with
        engine := { is_loaded := true, model := some s.nextHandle },
        nextHandle := s.nextHandle + 1,
        constructions := s.constructions + 1 },
      Except.ok ())
  else
    (s, Except.error PyErr.loadException)

/-- The f-string of coqui.py line 66:
`f"Language '{language}' not supported. Available: {self.SUPPORTED_LANGUAGES}"`. -/
def languageNotSupportedMsg (language : String) : String :=
  "Language " ++ sq ++ language ++ sq ++ " not supported. Available: " ++
    pyStrListRepr SUPPORTED_LANGUAGES

/-- The f-string of coqui.py line 71:
`f"Text too long. Maximum {max_length} characters allowed."`. -/
def textTooLongMsg (max_length : Nat) : String :=
  "Text too long. Maximum " ++ toString max_length ++ " characters allowed."

/-- Step "resolve reference audio" of `synthesize` (coqui.py lines 76-87):
a `str`/`Path` is used directly; a numpy array is written to a fresh
`NamedTemporaryFile` (with `delete=False`), which puts `env.tmpName` on
disk and uses it as the speaker path. -/
def resolveSpeaker (env : Env) (s : Sys) (speaker_wav : Option SpeakerWav) :
    Sys × Option String :=
  match speaker_wav with
  | none => (s, none)
  | some (SpeakerWav.path p) => (s, some p)
  | some (SpeakerWav.buffer _) =>
      ({ s with files := env.tmpName :: s.files }, some env.tmpName)

/-- The `try` block of `synthesize` (coqui.py lines 73-117): resolve the
speaker reference, invoke `self.model.tts` (voice-cloning mode when a
speaker path is present, default-speaker mode otherwise — both are one
`tts` invocation), then `if speaker_wav_path and isinstance(speaker_wav, np.ndarray):
Path(speaker_wav_path).unlink(missing_ok=True)` and return the audio.
An exception from `model.tts` is printed and re-raised by the `except`
block WITHOUT running the unlink (the cleanup sits inside the `try`,
before `return`). Python truthiness of `speaker_wav_path` is the
non-emptiness test on the string. -/
def trySynthesize (env : Env) (s : Sys) (speaker_wav : Option SpeakerWav) :
    Sys × Except PyErr (List ℚ) :=
  let r := resolveSpeaker env s speaker_wav
  let s2 := { r.1 with ttsCalls := r.1.ttsCalls + 1 }
  if env.ttsOk then
    let s3 :=
      match r.2, speaker_wav with
      | some p, some (SpeakerWav.buffer _) =>
          if p = "" then s2 else { s2 with files := s2.files.erase p }
      | _, _ => s2
    (s3, Except.ok env.ttsAudio)
  else
    (s2, Except.error PyErr.ttsException)

/-- The body of `synthesize` after the lazy load (coqui.py lines 63-117):
language validation (line 64-66), text length validation against
`kwargs.get("max_length", 500)` (lines 69-71), then the `try` block. -/
def synthesizeBody (env : Env) (s : Sys) (text language : String)
    (speaker_wav : Option SpeakerWav) (max_length_kwarg : Option Nat) :
    Sys × Except PyErr (List ℚ) :=
  if language ∉ SUPPORTED_LANGUAGES then
    (s, Except.error (PyErr.valueError (languageNotSupportedMsg language)))
  else
    let max_length := max_length_kwarg.getD 500
    if text.length > max_length then
      (s, Except.error (PyErr.valueError (textTooLongMsg max_length)))
    else
      trySynthesize env s speaker_wav

/-- `CoquiXTTSEngine.synthesize` (coqui.py lines 52-117):
`if not self.is_loaded: await self.load_model()` (an exception from the
load propagates), then the validations and the `try` block.
`max_length_kwarg` models the presence of a `max_length` key in `kwargs`. -/
def synthesize (env : Env) (s : Sys) (text language : String)
    (speaker_wav : Option SpeakerWav) (max_length_kwarg : Option Nat) :
    Sys × Except PyErr (List ℚ) :=
  if s.engine.is_loaded then
    synthesizeBody env s text language speaker_wav max_length_kwarg
  else
    match load_model env s with
    | (s1, Except.error e) => (s1, Except.error e)
    | (s1, Except.ok _) =>
        synthesizeBody env s1 text language speaker_wav max_length_kwarg

/-- Helper: `load_model` never touches `files`. -/
theorem load_model_files (env : Env) (s : Sys) :
    ((load_model env s).1).files = s.files := by
  unfold load_model
  split <;> rfl

/-- Helper: `load_model` never touches `ttsCalls`. -/
theorem load_model_ttsCalls (env : Env) (s : Sys) :
    ((load_model env s).1).ttsCalls = s.ttsCalls := by
  unfold load_model
  split <;> rfl

/-- Helper: with a `str`/`Path` speaker reference the body of `synthesize`
leaves the filesystem untouched in every branch. -/
theorem synthesizeBody_path_files (env : Env) (s : Sys) (text language p : String)
    (kw : Option Nat) :
    ((synthesizeBody env s text language (some (SpeakerWav.path p)) kw).1).files
      = s.files := by
  unfold synthesizeBody trySynthesize resolveSpeaker
  by_cases h1 : language ∉ SUPPORTED_LANGUAGES
  · simp [h1]
  · by_cases h2 : text.length > kw.getD 500
    · simp [h1, h2]
    · by_cases h3 : env.ttsOk
      · simp [h1, h2, h3]
      · simp [h1, h2, h3]

/-- C8: a caller-supplied reference-audio file path is never deleted by
`synthesize` — in fact the call leaves the set of files on disk
unchanged in every branch (validation failure, load failure, `tts`
failure, success): only engine-created temporary files are ever deleted. -/
theorem C8_caller_path_never_deleted (env : Env) (s : Sys)
    (text language p : String) (kw : Option Nat) :
    ((synthesize env s text language (some (SpeakerWav.path p)) kw).1).files
      = s.files := by
  unfold synthesize
  split
  · exact synthesizeBody_path_files env s text language p kw
  · have hfiles : ((load_model env s).1).files = s.files := load_model_files env s
    rcases hmatch : load_model env s with ⟨s1, r⟩
    rw [hmatch] at hfiles
    cases r with
    | error e => exact hfiles
    | ok a => exact (synthesizeBody_path_files env s1 text language p kw).trans hfiles

/-- C6: when the underlying `TTS(...)` construction raises, `load_model`
re-raises and leaves the engine state (and all bookkeeping) exactly as it
was: `is_loaded` stays `false`, no model handle is retained, and a
subsequent `load_model` in a world where construction succeeds loads the
engine. -/
theorem C6_failed_load_leaves_unloaded (env : Env) (s : Sys)
    (hunloaded : s.engine.is_loaded = false)
    (hnomodel : s.engine.model = none)
    (hfail : env.loadOk = false) :
    (load_model env s).1 = s ∧
    (load_model env s).2 = Except.error PyErr.loadException ∧
    ((load_model env s).1).engine.is_loaded = false ∧
    ((load_model env s).1).engine.model = none ∧
    (∀ env2 : Env, env2.loadOk = true →
      ((load_model env2 (load_model env s).1).1).engine.is_loaded = true) := by
  have hred : load_model env s = (s, Except.error PyErr.loadException) := by
    unfold load_model
    rw [hfail]
    rfl
  rw [hred]
  refine ⟨rfl, rfl, hunloaded, hnomodel, ?_⟩
  intro env2 h2
  unfold load_model
  rw [h2]
  rfl

/-- Witness for `C6_failed_load_leaves_unloaded` at a concrete unloaded
engine and a failing world. -/
theorem C6_failed_load_leaves_unloaded_witness :
    (load_model ⟨false, true, [], "t.wav"⟩
        ⟨⟨false, none⟩, 0, 0, 0, []⟩).1 = ⟨⟨false, none⟩, 0, 0, 0, []⟩ ∧
    (load_model ⟨false, true, [], "t.wav"⟩
        ⟨⟨false, none⟩, 0, 0, 0, []⟩).2 = Except.error PyErr.loadException ∧
    ((load_model ⟨false, true, [], "t.wav"⟩
        ⟨⟨false, none⟩, 0, 0, 0, []⟩).1).engine.is_loaded = false ∧
    ((load_model ⟨false, true, [], "t.wav"⟩
        ⟨⟨false, none⟩, 0, 0, 0, []⟩).1).engine.model = none ∧
    (∀ env2 : Env, env2.loadOk = true →
      ((load_model env2 (load_model ⟨false, true, [], "t.wav"⟩
          ⟨⟨false, none⟩, 0, 0, 0, []⟩).1).1).engine.is_loaded = true) :=
  C6_failed_load_leaves_unloaded ⟨false, true, [], "t.wav"⟩
    ⟨⟨false, none⟩, 0, 0, 0, []⟩ rfl rfl rfl

/-- Helper: successful `load_model` written out. -/
theorem load_model_ok (env : Env) (s : Sys) (h : env.loadOk = true) :
    load_model env s =
      ({ s with
          engine := { is_loaded := true, model := some s.nextHandle },
          nextHandle := s.nextHandle + 1,
          constructions := s.constructions + 1 }, Except.ok ()) := by
  unfold load_model
  rw [h]
  rfl

/-- Helper: on a loaded engine `synthesize` skips the lazy load. -/
theorem synthesize_loaded (env : Env) (s : Sys) (text language : String)
    (sw : Option SpeakerWav) (kw : Option Nat)
    (h : s.engine.is_loaded = true) :
    synthesize env s text language sw kw =
      synthesizeBody env s text language sw kw := by
  unfold synthesize
  split
  · rfl
  · rename_i hn
    exact absurd h hn

/-- Helper: with a supported language and text within the limit, the body
of `synthesize` is exactly its `try` block. -/
theorem synthesizeBody_valid (env : Env) (s : Sys) (text language : String)
    (sw : Option SpeakerWav) (kw : Option Nat)
    (hlang : language ∈ SUPPORTED_LANGUAGES)
    (hlen : text.length ≤ kw.getD 500) :
    synthesizeBody env s text language sw kw = trySynthesize env s sw := by
  unfold synthesizeBody
  have h2 : ¬ text.length > kw.getD 500 := not_lt.mpr hlen
  simp [hlang, h2]

/-- Helper: the `try` block never constructs a model. -/
theorem trySynthesize_constructions (env : Env) (s : Sys)
    (sw : Option SpeakerWav) :
    ((trySynthesize env s sw).1).constructions = s.constructions := by
  unfold trySynthesize resolveSpeaker
  cases sw with
  | none => by_cases h : env.ttsOk <;> simp [h]
  | some w =>
    cases w with
    | path p => by_cases h : env.ttsOk <;> simp [h]
    | buffer d =>
        by_cases h : env.ttsOk <;> by_cases h2 : env.tmpName = "" <;> simp [h, h2]

/-- Helper: the body of `synthesize` never constructs a model. -/
theorem synthesizeBody_constructions (env : Env) (s : Sys)
    (text language : String) (sw : Option SpeakerWav) (kw : Option Nat) :
    ((synthesizeBody env s text language sw kw).1).constructions
      = s.constructions := by
  unfold synthesizeBody
  by_cases h1 : language ∉ SUPPORTED_LANGUAGES
  · simp [h1]
  · by_cases h2 : text.length > kw.getD 500
    · simp [h1, h2]
    · have h3 := trySynthesize_constructions env s sw
      simp only [h1, if_false, h2]
      simpa [h2] using h3

/-- Concrete world where both the model construction and `model.tts`
succeed. -/
def envT : Env := ⟨true, true, [], "t.wav"⟩

/-- Concrete world where `model.tts` raises. -/
def envFailTts : Env := ⟨true, false, [], "tmp.wav"⟩

/-- Concrete engine state fresh from `__init__` (unloaded, no handle). -/
def sysUnloaded : Sys := ⟨⟨false, none⟩, 0, 0, 0, []⟩

/-- Concrete engine state after one successful load (handle 0). -/
def sysLoaded : Sys := ⟨⟨true, some 0⟩, 1, 1, 0, []⟩

/-- A text of 501 characters. -/
def text501 : String := String.mk (List.replicate 501 (Char.ofNat 97))

/-- C2: calling `synthesize` with a language outside
`SUPPORTED_LANGUAGES` never invokes `model.tts`, and (whenever the call
does not abort earlier inside a failing lazy load) it fails with the
`ValueError` whose message names the rejected code and lists the valid
codes. -/
theorem C2_unsupported_language (env : Env) (s : Sys) (text language : String)
    (sw : Option SpeakerWav) (kw : Option Nat)
    (hlang : language ∉ SUPPORTED_LANGUAGES) :
    ((synthesize env s text language sw kw).1).ttsCalls = s.ttsCalls ∧
    (s.engine.is_loaded = true ∨ env.loadOk = true →
      (synthesize env s text language sw kw).2 =
        Except.error (PyErr.valueError (languageNotSupportedMsg language))) := by
  have hbody : ∀ s' : Sys, synthesizeBody env s' text language sw kw =
      (s', Except.error (PyErr.valueError (languageNotSupportedMsg language))) := by
    intro s'
    unfold synthesizeBody
    simp [hlang]
  constructor
  · unfold synthesize
    split
    · rw [hbody s]
    · have hc := load_model_ttsCalls env s
      rcases hmatch : load_model env s with ⟨s1, r⟩
      rw [hmatch] at hc
      cases r with
      | error e => exact hc
      | ok a =>
          change ((synthesizeBody env s1 text language sw kw).1).ttsCalls
            = s.ttsCalls
          rw [hbody s1]
          exact hc
  · intro hload
    unfold synthesize
    split
    · rw [hbody s]
    · rename_i hnl
      have hok : env.loadOk = true := by
        cases hload with
        | inl h => exact absurd h hnl
        | inr h => exact h
      have h3 : (load_model env s).2 = Except.ok () := by
        rw [load_model_ok env s hok]
      rcases hmatch : load_model env s with ⟨s1, r⟩
      rw [hmatch] at h3
      cases r with
      | error e => exact absurd h3 (by simp)
      | ok a =>
          change (synthesizeBody env s1 text language sw kw).2 = _
          rw [hbody s1]

/-- Witness for `C2_unsupported_language` at the concrete language
code "xx" on a loaded engine. -/
theorem C2_unsupported_language_witness :
    ((synthesize envT sysLoaded "hello" "xx" none none).1).ttsCalls = 0 ∧
    (sysLoaded.engine.is_loaded = true ∨ envT.loadOk = true →
      (synthesize envT sysLoaded "hello" "xx" none none).2 =
        Except.error (PyErr.valueError (languageNotSupportedMsg "xx"))) :=
  C2_unsupported_language envT sysLoaded "hello" "xx" none none (by decide)

/-- C3 counterexample: on an unloaded engine, a 501-character text against
the default `max_length = 500` does fail with the text-too-long
`ValueError`, but only AFTER a model load has been performed — `synthesize`
runs `if not self.is_loaded: await self.load_model()` before any
validation, so the claim "no load occurs" is false (`constructions`
goes from 0 to 1). -/
theorem C3_counterexample :
    ((synthesize envT sysUnloaded text501 "en" none none).1).constructions = 1 ∧
    (synthesize envT sysUnloaded text501 "en" none none).2 =
      Except.error (PyErr.valueError (textTooLongMsg 500)) := by
  constructor
  · rfl
  · rfl

/-- C3 amended: a call whose text exceeds `max_length` (default 500) and
whose language is supported fails with the text-too-long `ValueError`
reporting the limit, and `model.tts` is never invoked; however the
implicit lazy load DOES run first when the engine is unloaded
(`constructions` increases by one), and only an already-loaded engine
performs no load. -/
theorem C3_amended (env : Env) (s : Sys) (text language : String)
    (sw : Option SpeakerWav) (kw : Option Nat)
    (hlang : language ∈ SUPPORTED_LANGUAGES)
    (hlen : text.length > kw.getD 500) :
    ((synthesize env s text language sw kw).1).ttsCalls = s.ttsCalls ∧
    (s.engine.is_loaded = true ∨ env.loadOk = true →
      (synthesize env s text language sw kw).2 =
        Except.error (PyErr.valueError (textTooLongMsg (kw.getD 500)))) ∧
    (s.engine.is_loaded = true →
      ((synthesize env s text language sw kw).1).constructions
        = s.constructions) ∧
    (s.engine.is_loaded = false → env.loadOk = true →
      ((synthesize env s text language sw kw).1).constructions
        = s.constructions + 1) := by
  have hbody : ∀ s' : Sys, synthesizeBody env s' text language sw kw =
      (s', Except.error (PyErr.valueError (textTooLongMsg (kw.getD 500)))) := by
    intro s'
    unfold synthesizeBody
    simp [hlang, hlen]
  refine ⟨?_, ?_, ?_, ?_⟩
  · unfold synthesize
    split
    · rw [hbody s]
    · have hc := load_model_ttsCalls env s
      rcases hmatch : load_model env s with ⟨s1, r⟩
      rw [hmatch] at hc
      cases r with
      | error e => exact hc
      | ok a =>
          change ((synthesizeBody env s1 text language sw kw).1).ttsCalls
            = s.ttsCalls
          rw [hbody s1]
          exact hc
  · intro hload
    unfold synthesize
    split
    · rw [hbody s]
    · rename_i hnl
      have hok : env.loadOk = true := by
        cases hload with
        | inl h => exact absurd h hnl
        | inr h => exact h
      have h3 : (load_model env s).2 = Except.ok () := by
        rw [load_model_ok env s hok]
      rcases hmatch : load_model env s with ⟨s1, r⟩
      rw [hmatch] at h3
      cases r with
      | error e => exact absurd h3 (by simp)
      | ok a =>
          change (synthesizeBody env s1 text language sw kw).2 = _
          rw [hbody s1]
  · intro hl
    rw [synthesize_loaded env s text language sw kw hl, hbody s]
  · intro hnl hok
    unfold synthesize
    rw [hnl]
    simp only [Bool.false_eq_true, if_false]
    rw [load_model_ok env s hok]
    change ((synthesizeBody env _ text language sw kw).1).constructions
      = s.constructions + 1
    rw [hbody]

/-- Witness for `C3_amended`: unloaded engine, 501 characters against the
default limit of 500, supported language "en". -/
theorem C3_amended_witness :
    ((synthesize envT sysUnloaded text501 "en" none none).1).ttsCalls = 0 ∧
    (sysUnloaded.engine.is_loaded = true ∨ envT.loadOk = true →
      (synthesize envT sysUnloaded text501 "en" none none).2 =
        Except.error (PyErr.valueError (textTooLongMsg 500))) ∧
    (sysUnloaded.engine.is_loaded = true →
      ((synthesize envT sysUnloaded text501 "en" none none).1).constructions
        = 0) ∧
    (sysUnloaded.engine.is_loaded = false → envT.loadOk = true →
      ((synthesize envT sysUnloaded text501 "en" none none).1).constructions
        = 0 + 1) :=
  C3_amended envT sysUnloaded text501 "en" none none (by decide) (by decide)

/-- C4 counterexample: calling `load_model` on an engine that is already
loaded (handle 0) is NOT a no-op: it constructs a second model handle
(the construction counter goes from 1 to 2) and replaces the stored
handle by the new one. -/
theorem C4_counterexample :
    sysLoaded.engine.is_loaded = true ∧
    sysLoaded.engine.model = some 0 ∧
    sysLoaded.constructions = 1 ∧
    ((load_model envT sysLoaded).1).constructions = 2 ∧
    ((load_model envT sysLoaded).1).engine.model = some 1 := by
  refine ⟨rfl, rfl, rfl, rfl, rfl⟩

/-- C4 amended: `load_model` is not idempotent — on an already-loaded
engine (in a world where construction succeeds) it performs one more
`TTS(...)` construction and overwrites the stored handle with the fresh
one, leaving `is_loaded` true; only `synthesize` guards the load behind
`if not self.is_loaded`, so a `synthesize` call on a loaded engine
performs no construction. -/
theorem C4_amended (env : Env) (s : Sys)
    (hloaded : s.engine.is_loaded = true) (hok : env.loadOk = true) :
    ((load_model env s).1).constructions = s.constructions + 1 ∧
    ((load_model env s).1).engine.model = some s.nextHandle ∧
    ((load_model env s).1).engine.is_loaded = true ∧
    (∀ (text language : String) (sw : Option SpeakerWav) (kw : Option Nat),
      ((synthesize env s text language sw kw).1).constructions
        = s.constructions) := by
  rw [load_model_ok env s hok]
  refine ⟨rfl, rfl, rfl, ?_⟩
  intro text language sw kw
  rw [synthesize_loaded env s text language sw kw hloaded]
  exact synthesizeBody_constructions env s text language sw kw

/-- Witness for `C4_amended` on the concrete loaded engine with handle 0. -/
theorem C4_amended_witness :
    ((load_model envT sysLoaded).1).constructions = 1 + 1 ∧
    ((load_model envT sysLoaded).1).engine.model = some 1 ∧
    ((load_model envT sysLoaded).1).engine.is_loaded = true ∧
    (∀ (text language : String) (sw : Option SpeakerWav) (kw : Option Nat),
      ((synthesize envT sysLoaded text language sw kw).1).constructions = 1) :=
  C4_amended envT sysLoaded rfl rfl

/-- C1 counterexample: a synthesis call on a loaded engine with an
in-memory reference buffer, in a world where `model.tts` raises: the
exception propagates and the temporary file "tmp.wav" created for the
buffer is STILL ON DISK after the call — the cleanup sits inside the
`try` block before `return` and the `except` block re-raises without
unlinking. -/
theorem C1_counterexample :
    ((synthesize envFailTts sysLoaded "hi" "en"
        (some (SpeakerWav.buffer [1])) none).1).files = ["tmp.wav"] ∧
    (synthesize envFailTts sysLoaded "hi" "en"
        (some (SpeakerWav.buffer [1])) none).2 =
      Except.error PyErr.ttsException := by
  constructor
  · rfl
  · rfl

/-- C1 amended: for a call with an in-memory reference buffer (on a loaded
engine, with valid language and length, and a fresh nonempty temp-file
name), the temporary file is deleted before the call returns when
`model.tts` succeeds; but when `model.tts` raises, the temporary file is
NOT deleted and remains on disk while the exception propagates. -/
theorem C1_amended (env : Env) (s : Sys) (text language : String)
    (data : List ℚ) (kw : Option Nat)
    (hloaded : s.engine.is_loaded = true)
    (hlang : language ∈ SUPPORTED_LANGUAGES)
    (hlen : text.length ≤ kw.getD 500)
    (htmp : env.tmpName ≠ "") :
    (env.ttsOk = true →
      ((synthesize env s text language (some (SpeakerWav.buffer data)) kw).1).files
          = s.files ∧
      (synthesize env s text language (some (SpeakerWav.buffer data)) kw).2
          = Except.ok env.ttsAudio) ∧
    (env.ttsOk = false →
      ((synthesize env s text language (some (SpeakerWav.buffer data)) kw).1).files
          = env.tmpName :: s.files ∧
      (synthesize env s text language (some (SpeakerWav.buffer data)) kw).2
          = Except.error PyErr.ttsException) := by
  rw [synthesize_loaded env s text language (some (SpeakerWav.buffer data)) kw hloaded,
    synthesizeBody_valid env s text language (some (SpeakerWav.buffer data)) kw hlang hlen]
  unfold trySynthesize resolveSpeaker
  constructor
  · intro hok
    simp [hok, htmp, List.erase_cons_head]
  · intro hfail
    simp [hfail]

/-- Witness for `C1_amended` with a one-sample buffer on the loaded
engine, in the world where `model.tts` succeeds. -/
theorem C1_amended_witness :
    (envT.ttsOk = true →
      ((synthesize envT sysLoaded "hi" "en"
          (some (SpeakerWav.buffer [1])) none).1).files = [] ∧
      (synthesize envT sysLoaded "hi" "en"
          (some (SpeakerWav.buffer [1])) none).2 = Except.ok envT.ttsAudio) ∧
    (envT.ttsOk = false →
      ((synthesize envT sysLoaded "hi" "en"
          (some (SpeakerWav.buffer [1])) none).1).files = ["t.wav"] ∧
      (synthesize envT sysLoaded "hi" "en"
          (some (SpeakerWav.buffer [1])) none).2 =
        Except.error PyErr.ttsException) :=
  C1_amended envT sysLoaded "hi" "en" [1] none rfl (by decide) (by decide)
    (by decide)

/-! ### AudioProcessor.normalize_audio (audio.py lines 30-35)

Samples are embedded as exact rationals; the numpy float computation is
the same expression over ℚ, so "within floating-point tolerance" becomes
exact equality. -/

/-- `np.max(np.abs(audio))`: the maximum absolute sample.  numpy raises
`ValueError` on a zero-size array, modelled as `none`. -/
def npAbsMax (audio : List ℚ) : Option ℚ :=
  match audio with
  | [] => none
  | x :: xs => some (xs.foldl (fun m y => max m |y|) |x|)

/-- `AudioProcessor.normalize_audio(audio, target_peak=0.95)`
(audio.py lines 30-35): if the max absolute sample is zero return the
buffer unchanged, else scale every sample by `target_peak / max`. -/
def normalize_audio (audio : List ℚ) (target_peak : ℚ := 0.95) :
    Option (List ℚ) :=
  match npAbsMax audio with
  | none => none
  | some m =>
      if m = 0 then some audio
      else some (audio.map (fun x => x * (target_peak / m)))

/-- Helper: the running absolute maximum stays nonnegative. -/
theorem foldl_absMax_nonneg (xs : List ℚ) (m : ℚ) (h : 0 ≤ m) :
    0 ≤ xs.foldl (fun a y => max a |y|) m := by
  induction xs generalizing m with
  | nil => exact h
  | cons x xs ih => exact ih _ (le_trans h (le_max_left _ _))

/-- Helper: scaling every sample by `c` scales the running absolute
maximum by `|c|`. -/
theorem foldl_absMax_map_mul (xs : List ℚ) (c m : ℚ) :
    (xs.map (fun x => x * c)).foldl (fun a y => max a |y|) (m * |c|)
      = (xs.foldl (fun a y => max a |y|) m) * |c| := by
  induction xs generalizing m with
  | nil => rfl
  | cons x xs ih =>
      simp only [List.map_cons, List.foldl_cons]
      rw [abs_mul, ← max_mul_of_nonneg m |x| (abs_nonneg c)]
      exact ih (max m |x|)

/-- Helper: `npAbsMax` of a scaled buffer. -/
theorem npAbsMax_map_mul (audio : List ℚ) (c : ℚ) :
    npAbsMax (audio.map (fun x => x * c))
      = (npAbsMax audio).map (fun m => m * |c|) := by
  cases audio with
  | nil => rfl
  | cons x xs =>
      simp only [npAbsMax, List.map_cons, Option.map_some']
      rw [abs_mul]
      exact congrArg some (foldl_absMax_map_mul xs c |x|)

/-- Helper: a defined `npAbsMax` is nonnegative. -/
theorem npAbsMax_nonneg (audio : List ℚ) (m : ℚ)
    (h : npAbsMax audio = some m) : 0 ≤ m := by
  cases audio with
  | nil => exact absurd h (by simp [npAbsMax])
  | cons x xs =>
      simp only [npAbsMax, Option.some.injEq] at h
      rw [← h]
      exact foldl_absMax_nonneg xs |x| (abs_nonneg x)

/-- C5: for a nonnegative `target_peak`, `normalize_audio` returns a
silent buffer (max absolute amplitude zero) unchanged — so it never
divides by zero — and on any non-silent buffer it returns a buffer whose
maximum absolute sample value is exactly `target_peak` (exact rational
arithmetic stands in for "within floating-point tolerance").  An empty
buffer has no maximum (`npAbsMax` is `none`: numpy raises), so both
clauses are conditioned on `npAbsMax audio = some m`. -/
theorem C5_normalize_peak (audio : List ℚ) (tp : ℚ) (htp : 0 ≤ tp) :
    (npAbsMax audio = some 0 → normalize_audio audio tp = some audio) ∧
    (∀ m : ℚ, npAbsMax audio = some m → m ≠ 0 →
      ∃ out : List ℚ, normalize_audio audio tp = some out ∧
        npAbsMax out = some tp) := by
  constructor
  · intro h
    unfold normalize_audio
    rw [h]
    simp
  · intro m hm hne
    have hpos : 0 < m := lt_of_le_of_ne (npAbsMax_nonneg audio m hm) (Ne.symm hne)
    refine ⟨audio.map (fun x => x * (tp / m)), ?_, ?_⟩
    · unfold normalize_audio
      rw [hm]
      simp [hne]
    · rw [npAbsMax_map_mul, hm]
      have habs : |tp / m| = tp / m :=
        abs_of_nonneg (div_nonneg htp (le_of_lt hpos))
      simp only [Option.map_some']
      rw [habs, mul_comm, div_mul_cancel₀ tp hne]

/-- Witness for `C5_normalize_peak`: the buffer `[1/2, -2]` has max
absolute sample 2 and normalizes to peak 0.95. -/
theorem C5_normalize_peak_witness :
    ∃ out : List ℚ, normalize_audio [(1:ℚ)/2, -2] 0.95 = some out ∧
      npAbsMax out = some 0.95 :=
  (C5_normalize_peak [(1:ℚ)/2, -2] 0.95 (by norm_num)).2 2
    (by norm_num [npAbsMax, abs_of_nonneg]) (by norm_num)

/-! ### get_supported_languages (coqui.py lines 119-121)

Python lists are mutable objects; to make the "fresh copy" observable the
class-attribute list and the returned list live in an explicit heap of
list objects addressed by allocation order. -/

/-- A heap of Python list-of-string objects. -/
structure ListHeap where
  store : List (List String)
  deriving DecidableEq, Repr

/-- Dereference an address. -/
def ListHeap.get (h : ListHeap) (a : Nat) : List String :=
  (h.store[a]?).getD []

/-- Allocate a fresh list object, returning its address. -/
def ListHeap.alloc (h : ListHeap) (v : List String) : ListHeap × Nat :=
  ({ store := h.store ++ [v] }, h.store.length)

/-- In-place mutation of the list object at address `a` (Python
`lst.append(...)`, `lst.clear()`, slice assignment, ...). -/
def ListHeap.setAt (h : ListHeap) (a : Nat) (v : List String) : ListHeap :=
  { store := h.store.set a v }

/-- `CoquiXTTSEngine.get_supported_languages` (coqui.py lines 119-121):
`return self.SUPPORTED_LANGUAGES.copy()` — read the class-attribute list
at address `cls` and allocate a fresh copy of it. -/
def get_supported_languages (h : ListHeap) (cls : Nat) : ListHeap × Nat :=
  h.alloc (h.get cls)

/-- C10: `get_supported_languages` returns a fresh copy of the fixed
16-code language list: the returned object holds `SUPPORTED_LANGUAGES`
(16 codes), mutating the returned object leaves the engine's class
attribute unchanged, and a further call after such a mutation still
returns the same 16 codes. -/
theorem C10_fresh_copy (h : ListHeap) (cls : Nat)
    (hc : h.store[cls]? = some SUPPORTED_LANGUAGES) :
    SUPPORTED_LANGUAGES.length = 16 ∧
    ((get_supported_languages h cls).1).get (get_supported_languages h cls).2
      = SUPPORTED_LANGUAGES ∧
    (∀ v : List String,
      (((get_supported_languages h cls).1).setAt
          (get_supported_languages h cls).2 v).get cls
        = SUPPORTED_LANGUAGES) ∧
    (∀ v : List String,
      ((get_supported_languages (((get_supported_languages h cls).1).setAt
            (get_supported_languages h cls).2 v) cls).1).get
          (get_supported_languages (((get_supported_languages h cls).1).setAt
            (get_supported_languages h cls).2 v) cls).2
        = SUPPORTED_LANGUAGES) := by
  have hlt : cls < h.store.length := by
    by_contra hge
    rw [List.getElem?_eq_none (by omega)] at hc
    cases hc
  have hget : h.get cls = SUPPORTED_LANGUAGES := by
    unfold ListHeap.get
    rw [hc]
    rfl
  have hne : cls ≠ h.store.length := Nat.ne_of_lt hlt
  have hmut : ∀ v : List String,
      ((((get_supported_languages h cls).1).setAt
          (get_supported_languages h cls).2 v).store)[cls]?
        = some SUPPORTED_LANGUAGES := by
    intro v
    unfold get_supported_languages ListHeap.alloc ListHeap.setAt
    simp only
    rw [List.getElem?_set_ne (Ne.symm hne), List.getElem?_append_left hlt]
    exact hc
  refine ⟨rfl, ?_, ?_, ?_⟩
  · unfold get_supported_languages ListHeap.alloc ListHeap.get
    simp only
    rw [List.getElem?_concat_length, hc]
    rfl
  · intro v
    unfold ListHeap.get
    rw [hmut v]
    rfl
  · intro v
    unfold get_supported_languages ListHeap.alloc ListHeap.get
    simp only
    rw [List.getElem?_concat_length]
    show ((((get_supported_languages h cls).1).setAt
        (get_supported_languages h cls).2 v).get cls) = SUPPORTED_LANGUAGES
    unfold ListHeap.get
    rw [hmut v]
    rfl

/-- Witness for `C10_fresh_copy` on the one-object heap holding the class
attribute at address 0. -/
theorem C10_fresh_copy_witness :
    SUPPORTED_LANGUAGES.length = 16 ∧
    ((get_supported_languages ⟨[SUPPORTED_LANGUAGES]⟩ 0).1).get
        (get_supported_languages ⟨[SUPPORTED_LANGUAGES]⟩ 0).2
      = SUPPORTED_LANGUAGES ∧
    (∀ v : List String,
      (((get_supported_languages ⟨[SUPPORTED_LANGUAGES]⟩ 0).1).setAt
          (get_supported_languages ⟨[SUPPORTED_LANGUAGES]⟩ 0).2 v).get 0
        = SUPPORTED_LANGUAGES) ∧
    (∀ v : List String,
      ((get_supported_languages
            (((get_supported_languages ⟨[SUPPORTED_LANGUAGES]⟩ 0).1).setAt
              (get_supported_languages ⟨[SUPPORTED_LANGUAGES]⟩ 0).2 v) 0).1).get
          (get_supported_languages
            (((get_supported_languages ⟨[SUPPORTED_LANGUAGES]⟩ 0).1).setAt
              (get_supported_languages ⟨[SUPPORTED_LANGUAGES]⟩ 0).2 v) 0).2
        = SUPPORTED_LANGUAGES) :=
  C10_fresh_copy ⟨[SUPPORTED_LANGUAGES]⟩ 0 rfl

/-! ### Concurrent `load_model` calls (coqui.py lines 36-50)

`load_model` has two suspension-relevant atomic phases: the executor job
`TTS(self.model_name).to(self.device)` (one model construction), and the
resumption that assigns `self.model` and sets `self.is_loaded = True`.
Two concurrent calls are modelled as two such tasks interleaved by an
arbitrary scheduler; each scheduler step advances one task by one phase.
There is no lock anywhere in `load_model`, and it never reads
`is_loaded`, so the phases of a task run regardless of the other task's
progress. -/

/-- Program counter of one `load_model` task. -/
inductive LoadPc where
  | start
  | constructed (h : Nat)
  | done
  deriving DecidableEq, Repr

/-- The engine fields shared by both tasks, plus construction bookkeeping
(as in `Sys`). -/
structure Shared where
  is_loaded : Bool
  model : Option Nat
  constructions : Nat
  nextHandle : Nat
  deriving DecidableEq, Repr

/-- One atomic phase of `load_model` for one task: `start` runs the
executor job (constructing one model handle), `constructed h` resumes and
performs `self.model = h; self.is_loaded = True`, `done` is finished
(stepping a finished task is a scheduler no-op). -/
def taskStep (g : Shared) (pc : LoadPc) : Shared × LoadPc :=
  match pc with
  | LoadPc.start =>
      ({ g with
          constructions := g.constructions + 1,
          nextHandle := g.nextHandle + 1 },
        LoadPc.constructed g.nextHandle)
  | LoadPc.constructed h =>
      ({ g with model := some h, is_loaded := true }, LoadPc.done)
  | LoadPc.done => (g, pc)

/-- Two concurrent `load_model` tasks over one shared engine. -/
structure CState where
  shared : Shared
  pc0 : LoadPc
  pc1 : LoadPc
  deriving DecidableEq, Repr

/-- Scheduler step: advance task 1 when `t = true`, task 0 otherwise. -/
def loadStep (s : CState) (t : Bool) : CState :=
  if t then
    { s with shared := (taskStep s.shared s.pc1).1, pc1 := (taskStep s.shared s.pc1).2 }
  else
    { s with shared := (taskStep s.shared s.pc0).1, pc0 := (taskStep s.shared s.pc0).2 }

/-- Run a schedule (list of scheduler choices). -/
def loadRun (s : CState) (sched : List Bool) : CState :=
  sched.foldl loadStep s

/-- Both tasks start on a fresh unloaded engine. -/
def initConc : CState :=
  { shared := { is_loaded := false, model := none, constructions := 0, nextHandle := 0 },
    pc0 := LoadPc.start,
    pc1 := LoadPc.start }

/-- How many constructions a task at this pc has performed. -/
def pcWeight : LoadPc → Nat
  | LoadPc.start => 0
  | LoadPc.constructed _ => 1
  | LoadPc.done => 1

/-- Invariant tying the shared construction counter and loaded flag to the
two program counters. -/
def concInv (s : CState) : Prop :=
  s.shared.constructions = pcWeight s.pc0 + pcWeight s.pc1 ∧
  (s.shared.is_loaded = true ↔ (s.pc0 = LoadPc.done ∨ s.pc1 = LoadPc.done))

/-- Helper: one scheduler step preserves the invariant. -/
theorem concInv_step (s : CState) (t : Bool) (h : concInv s) :
    concInv (loadStep s t) := by
  obtain ⟨h1, h2⟩ := h
  unfold concInv loadStep taskStep
  cases t with
  | false =>
      cases hpc : s.pc0 with
      | start =>
          refine ⟨?_, ?_⟩ <;> simp_all [pcWeight]
          omega
      | constructed hh =>
          refine ⟨?_, ?_⟩ <;> simp_all [pcWeight]
      | done =>
          refine ⟨?_, ?_⟩ <;> simp_all [pcWeight]
  | true =>
      cases hpc : s.pc1 with
      | start =>
          refine ⟨?_, ?_⟩ <;> simp_all [pcWeight]
      | constructed hh =>
          refine ⟨?_, ?_⟩ <;> simp_all [pcWeight]
      | done =>
          refine ⟨?_, ?_⟩ <;> simp_all [pcWeight]

/-- Helper: the invariant is preserved along any schedule. -/
theorem concInv_run_aux (sched : List Bool) (s : CState) (h : concInv s) :
    concInv (loadRun s sched) := by
  induction sched generalizing s with
  | nil => exact h
  | cons t ts ih => exact ih (loadStep s t) (concInv_step s t h)

/-- Helper: the invariant holds after any schedule from `initConc`. -/
theorem concInv_run (sched : List Bool) : concInv (loadRun initConc sched) := by
  apply concInv_run_aux
  constructor
  · rfl
  · simp [initConc]

/-- C9 counterexample: the schedule where task 0 runs to completion and
then task 1 runs already performs TWO model constructions, not one —
there is no single-flight guard, `load_model` never re-checks
`is_loaded`. -/
theorem C9_counterexample :
    (loadRun initConc [false, false, true, true]).pc0 = LoadPc.done ∧
    (loadRun initConc [false, false, true, true]).pc1 = LoadPc.done ∧
    (loadRun initConc [false, false, true, true]).shared.constructions ≠ 1 := by
  decide

/-- C9 amended: two concurrent `load_model` calls on one unloaded engine
perform exactly TWO underlying model constructions (one per call, under
every interleaving — there is no mutual exclusion / single-flight
discipline), and both calls do observe the loaded state on completion. -/
theorem C9_amended (sched : List Bool)
    (h0 : (loadRun initConc sched).pc0 = LoadPc.done)
    (h1 : (loadRun initConc sched).pc1 = LoadPc.done) :
    (loadRun initConc sched).shared.constructions = 2 ∧
    (loadRun initConc sched).shared.is_loaded = true := by
  obtain ⟨hc, hl⟩ := concInv_run sched
  constructor
  · rw [hc, h0, h1]
    rfl
  · exact hl.mpr (Or.inl h0)

/-- Witness for `C9_amended` at the concrete schedule where task 0 runs
to completion before task 1 starts. -/
theorem C9_amended_witness :
    (loadRun initConc [false, false, true, true]).shared.constructions = 2 ∧
    (loadRun initConc [false, false, true, true]).shared.is_loaded = true :=
  C9_amended [false, false, true, true] (by decide) (by decide)

/-! ### AudioProcessor.trim_silence (audio.py lines 37-41)

`trim_silence` delegates wholesale to the third-party
`librosa.effects.trim(audio, top_db=top_db)`, so that routine is embedded
here from librosa's implementation with its default parameters:
`frame_length = 2048`, `hop_length = 512`, `ref = np.max`,
`aggregate = np.max`, and `feature.rms` with `center = True`,
`pad_mode = "constant"` (zero padding of `frame_length // 2` on each
side; `util.frame` then yields `1 + (len - frame_length) // hop_length`
full frames).  A frame is non-silent when
`amplitude_to_db(rms, ref=np.max)[i] > -top_db`, i.e. (with
`p_i = rms_i^2`, `P = max_i p_i`, power-domain floor `amin = 1e-10`)
`10*log10(max(amin, p_i)) - 10*log10(max(amin, P)) > -top_db`.
Because `log10` and `x ^ 10` are strictly monotone on positives, for an
integer `top_db` this inequality is EXACTLY equivalent to the rational
inequality `max(amin, p_i)^10 * 10^top_db > max(amin, P)^10`, which is
what `nonsilentFrame` decides — an exact translation, no floating-point
logarithm needed.  The trimmed result is
`y[nonzero[0]*hop : min(len, (nonzero[-1]+1)*hop)]` (empty bounds when no
frame is non-silent). -/

/-- librosa default `frame_length`. -/
def FRAME_LENGTH : Nat := 2048

/-- librosa default `hop_length`. -/
def HOP_LENGTH : Nat := 512

/-- `amin ** 2` of `amplitude_to_db` (`amin = 1e-5` in amplitude, so
`1e-10` in the power domain), as an exact rational. -/
def AMIN_POWER : ℚ := 1 / 10 ^ 10

/-- The zero padding `feature.rms(center=True, pad_mode="constant")`
applies: `frame_length // 2` zeros on each side. -/
def paddedSignal (y : List ℚ) : List ℚ :=
  List.replicate (FRAME_LENGTH / 2) 0 ++ y ++ List.replicate (FRAME_LENGTH / 2) 0

/-- Number of full frames `util.frame` produces on the padded signal. -/
def numFrames (y : List ℚ) : Nat :=
  1 + ((paddedSignal y).length - FRAME_LENGTH) / HOP_LENGTH

/-- Sum of squares of a sample list. -/
def sumSquares (l : List ℚ) : ℚ := l.foldl (fun a x => a + x * x) 0

/-- `rms_i ** 2`: the mean square of frame `i` (frames start at
`i * hop_length` in the padded signal and are `frame_length` long). -/
def framePower (y : List ℚ) (i : Nat) : ℚ :=
  sumSquares (((paddedSignal y).drop (i * HOP_LENGTH)).take FRAME_LENGTH)
    / (FRAME_LENGTH : ℚ)

/-- The per-frame powers (the squared `feature.rms` sequence). -/
def framePowers (y : List ℚ) : List ℚ :=
  (List.range (numFrames y)).map (framePower y)

/-- `ref = np.max` over the frame powers (equals the square of the max
rms since all powers are nonnegative); the empty case cannot occur since
`numFrames ≥ 1`. -/
def refPower (y : List ℚ) : ℚ :=
  match framePowers y with
  | [] => 0
  | p :: ps => ps.foldl max p

/-- The dB comparison `amplitude_to_db(rms, ref=np.max)[i] > -top_db` of
`_signal_to_frame_nonsilent`, in its exact equivalent rational form (see
the section comment). -/
def nonsilentFrame (top_db : Nat) (P p : ℚ) : Bool :=
  decide ((max AMIN_POWER p) ^ 10 * 10 ^ top_db > (max AMIN_POWER P) ^ 10)

/-- The boolean non-silence mask over frames. -/
def nonsilentFlags (y : List ℚ) (top_db : Nat) : List Bool :=
  (framePowers y).map (nonsilentFrame top_db (refPower y))

/-- `np.flatnonzero`: the indices holding `true`, in increasing order. -/
def flatnonzero (flags : List Bool) : List Nat :=
  (List.range flags.length).filter (fun i => flags.getD i false)

/-- The slice bounds of `librosa.effects.trim`:
`(nonzero[0] * hop, min(len, (nonzero[-1] + 1) * hop))`, or `(0, 0)` when
no frame is non-silent. -/
def trimBounds (y : List ℚ) (top_db : Nat) : Nat × Nat :=
  if (flatnonzero (nonsilentFlags y top_db)).isEmpty then (0, 0)
  else ((flatnonzero (nonsilentFlags y top_db)).headD 0 * HOP_LENGTH,
    min y.length
      (((flatnonzero (nonsilentFlags y top_db)).getLastD 0 + 1) * HOP_LENGTH))

/-- `librosa.effects.trim(y, top_db)[0] = y[start:end]`. -/
def librosa_trim (y : List ℚ) (top_db : Nat) : List ℚ :=
  (y.drop (trimBounds y top_db).1).take
    ((trimBounds y top_db).2 - (trimBounds y top_db).1)

/-- `AudioProcessor.trim_silence(audio, top_db=20)` (audio.py lines
37-41): returns the first component of `librosa.effects.trim`. -/
def trim_silence (audio : List ℚ) (top_db : Nat := 20) : List ℚ :=
  librosa_trim audio top_db

/-- Helper: padding an all-zero signal yields an all-zero signal. -/
theorem paddedSignal_replicate_zero (n : Nat) :
    paddedSignal (List.replicate n (0:ℚ))
      = List.replicate (n + FRAME_LENGTH) (0:ℚ) := by
  unfold paddedSignal
  rw [← List.replicate_add, ← List.replicate_add]
  congr 1
  unfold FRAME_LENGTH
  omega

/-- Helper: the sum of squares of an all-zero list is zero. -/
theorem sumSquares_replicate_zero (k : Nat) :
    sumSquares (List.replicate k (0:ℚ)) = 0 := by
  have h : ∀ (k : Nat) (a : ℚ),
      (List.replicate k (0:ℚ)).foldl (fun b x => b + x * x) a = a := by
    intro k
    induction k with
    | zero => intro a; rfl
    | succ k ih =>
        intro a
        rw [List.replicate_succ, List.foldl_cons, ih]
        ring
  exact h k 0

/-- Helper: every frame of an all-zero signal has zero power. -/
theorem framePower_replicate_zero (n i : Nat) :
    framePower (List.replicate n (0:ℚ)) i = 0 := by
  unfold framePower
  rw [paddedSignal_replicate_zero, List.drop_replicate, List.take_replicate,
    sumSquares_replicate_zero]
  simp

/-- Helper: the frame powers of an all-zero signal are all zero. -/
theorem framePowers_replicate_zero (n : Nat) :
    framePowers (List.replicate n (0:ℚ))
      = List.replicate (numFrames (List.replicate n (0:ℚ))) (0:ℚ) := by
  unfold framePowers
  rw [List.eq_replicate_iff]
  constructor
  · simp
  · intro b hb
    rcases List.mem_map.mp hb with ⟨i, _, hfp⟩
    rw [← hfp, framePower_replicate_zero]

/-- Helper: the running max over zeros stays zero. -/
theorem foldl_max_replicate_zero (k : Nat) :
    (List.replicate k (0:ℚ)).foldl max 0 = 0 := by
  induction k with
  | zero => rfl
  | succ k ih =>
      rw [List.replicate_succ, List.foldl_cons]
      simpa using ih

/-- Helper: the reference power of an all-zero signal is zero. -/
theorem refPower_replicate_zero (n : Nat) :
    refPower (List.replicate n (0:ℚ)) = 0 := by
  unfold refPower
  rw [framePowers_replicate_zero]
  have h1 : numFrames (List.replicate n (0:ℚ))
      = (numFrames (List.replicate n (0:ℚ)) - 1) + 1 := by
    unfold numFrames HOP_LENGTH
    omega
  rw [h1, List.replicate_succ]
  exact foldl_max_replicate_zero _


/-- Helper: with the zero reference, the dB test of an all-zero frame is
`10*log10(amin) - 10*log10(amin) = 0 > -top_db`, i.e. true for any
positive `top_db`. -/
theorem nonsilentFrame_zero (top_db : Nat) (ht : 0 < top_db) :
    nonsilentFrame top_db 0 0 = true := by
  unfold nonsilentFrame
  rw [decide_eq_true_eq]
  have hmax : max AMIN_POWER (0:ℚ) = AMIN_POWER := by
    apply max_eq_left
    unfold AMIN_POWER
    positivity
  rw [hmax]
  have hpos : (0:ℚ) < AMIN_POWER ^ 10 := by
    unfold AMIN_POWER
    positivity
  have hgt : (1:ℚ) < 10 ^ top_db := by
    apply one_lt_pow₀ (by norm_num)
    omega
  exact (lt_mul_iff_one_lt_right hpos).mpr hgt

/-- Helper: every frame of an all-zero signal is non-silent. -/
theorem nonsilentFlags_replicate_zero (n top_db : Nat) (ht : 0 < top_db) :
    nonsilentFlags (List.replicate n (0:ℚ)) top_db
      = List.replicate (numFrames (List.replicate n (0:ℚ))) true := by
  unfold nonsilentFlags
  rw [framePowers_replicate_zero, refPower_replicate_zero, List.map_replicate,
    nonsilentFrame_zero top_db ht]

/-- Helper: the nonzero indices of an all-true mask are all indices. -/
theorem flatnonzero_replicate_true (k : Nat) :
    flatnonzero (List.replicate k true) = List.range k := by
  unfold flatnonzero
  rw [List.length_replicate]
  apply List.filter_eq_self.mpr
  intro i hi
  have hik : i < k := List.mem_range.mp hi
  rw [List.getD_eq_getElem?_getD, List.getElem?_replicate]
  simp [hik]

/-- Helper: frame count of an all-zero signal. -/
theorem numFrames_replicate_zero (n : Nat) :
    numFrames (List.replicate n (0:ℚ)) = 1 + n / HOP_LENGTH := by
  unfold numFrames
  rw [paddedSignal_replicate_zero, List.length_replicate]
  have h2 : n + FRAME_LENGTH - FRAME_LENGTH = n := by omega
  rw [h2]

/-- Helper: the trim bounds of an all-zero signal are the whole signal —
with `ref = np.max` the dB of every frame is 0, above `-top_db`, so the
first non-silent frame is 0 and the last is the final frame, whose end
`(1 + n/512) * 512` is at least `n`. -/
theorem trimBounds_replicate_zero (n top_db : Nat) (ht : 0 < top_db) :
    trimBounds (List.replicate n (0:ℚ)) top_db = (0, n) := by
  unfold trimBounds
  rw [nonsilentFlags_replicate_zero n top_db ht, flatnonzero_replicate_true,
    numFrames_replicate_zero]
  have hne : ¬ (List.range (1 + n / HOP_LENGTH)).isEmpty = true := by
    simp [List.isEmpty_iff, List.range_eq_nil]
  rw [if_neg hne]
  have hsucc : 1 + n / HOP_LENGTH = (n / HOP_LENGTH) + 1 := by omega
  have hhead : (List.range (1 + n / HOP_LENGTH)).headD 0 = 0 := by
    rw [hsucc, List.range_succ_eq_map]
    rfl
  have hlast : (List.range (1 + n / HOP_LENGTH)).getLastD 0 = n / HOP_LENGTH := by
    rw [hsucc, List.range_succ]
    exact List.getLastD_concat _ _ _
  have hge : n ≤ (n / HOP_LENGTH + 1) * HOP_LENGTH := by
    unfold HOP_LENGTH
    omega
  rw [hhead, hlast, List.length_replicate, Nat.zero_mul, Nat.min_eq_left hge]

/-- Helper: `librosa.effects.trim` returns an all-zero signal WHOLE (not
empty): relative to the signal's own peak nothing is below threshold. -/
theorem trim_replicate_zero (n top_db : Nat) (ht : 0 < top_db) :
    librosa_trim (List.replicate n (0:ℚ)) top_db = List.replicate n (0:ℚ) := by
  unfold librosa_trim
  rw [trimBounds_replicate_zero n top_db ht]
  simp

/-- C7 counterexample: the all-silent (all-zero) buffer of length 4 is
returned WHOLE by `trim_silence`, not as an empty buffer: librosa's
silence reference is the signal's own peak (`ref = np.max`), so an
all-zero signal has dB 0 everywhere, above `-top_db`, and nothing is
trimmed. -/
theorem C7_counterexample :
    trim_silence (List.replicate 4 (0:ℚ)) 20 = List.replicate 4 (0:ℚ) ∧
    List.replicate 4 (0:ℚ) ≠ ([] : List ℚ) := by
  constructor
  · exact trim_replicate_zero 4 20 (by norm_num)
  · decide

/-- C7 amended: `trim_silence` never raises (it is a total function of
the buffer); on an all-silent (all-zero) buffer it returns the buffer
UNCHANGED — not an empty buffer — because the threshold is relative to
the signal's own peak; and on every buffer it returns a contiguous
interior segment `y[start:end]` of the input, whose bounds drop the
leading and trailing frames more than `top_db` dB below the peak frame
(at hop granularity). -/
theorem C7_trim_amended (n : Nat) (y : List ℚ) (t : Nat) :
    trim_silence (List.replicate n (0:ℚ)) 20 = List.replicate n (0:ℚ) ∧
    (∃ s e : Nat, trim_silence y t = (y.drop s).take e) := by
  constructor
  · exact trim_replicate_zero n 20 (by norm_num)
  · exact ⟨(trimBounds y t).1,
      (trimBounds y t).2 - (trimBounds y t).1, rfl⟩

end TTSVerify
